import Mathlib

/-!
Shallow embedding of the position-size simulator
(src/position_size_simulation_simple.py).

Floating point arithmetic of the source is modelled over the rationals;
every constant of the program (30.0, 20.0, 150.0, 25.0, 0.55, ...) is an
exact rational.  Randomness is modelled by passing the drawn values in
explicitly: a per-executed-trade oracle supplies the uniform draw u, the
win-rate jitter j (gauss with mean 0 and sd 0.05) and the payoff noise g
consumed by simulate_wallet_edge, and the Poisson trade-count draw is an
explicit parameter.  The day loop of simulate_day becomes structural
recursion on the number of remaining trade attempts, with the Python
break statements returning the current state.
-/

namespace TraderEval

/-- Mirrors the StrategyConfig dataclass of the source. -/
structure StrategyConfig where
  name : String
  position_size_pct : ℚ
  position_size_usd : ℚ
  max_concurrent_positions : ℕ
  description : String
  deriving Repr, DecidableEq

/-- Mirrors the DailyResult dataclass of the source. -/
structure DailyResult where
  day : ℕ
  strategy : String
  trades_taken : ℕ
  wins : ℕ
  losses : ℕ
  daily_pnl : ℚ
  cumulative_pnl : ℚ
  hit_rate : ℚ
  max_concurrent_hit : Bool
  daily_loss_hit : Bool
  bankroll : ℚ
  deriving Repr, DecidableEq

/-- Mirrors the mutable fields of the WalletSimulator class. -/
structure WalletSimulator where
  initial_bankroll : ℚ
  bankroll : ℚ
  daily_pnl : ℚ
  total_pnl : ℚ
  daily_losses : ℚ
  deriving Repr, DecidableEq

/-- WalletSimulator constructor: all profit-and-loss trackers start at zero. -/
def WalletSimulator.init (bankroll : ℚ) : WalletSimulator :=
  ⟨bankroll, bankroll, 0, 0, 0⟩

/-- Mirrors WalletSimulator.reset_daily: zero the two per-day trackers. -/
def WalletSimulator.reset_daily (w : WalletSimulator) : WalletSimulator :=
  { w with daily_pnl := 0, daily_losses := 0 }

/-- Mirrors WalletSimulator.simulate_wallet_edge.  The random draws are the
parameters u (random.random), j (random.gauss 0 0.05) and g (the payoff
noise draw of whichever branch executes).  A win pays avg_win + g clamped
below at 0; a loss pays -avg_loss + g clamped above at 0. -/
def simulate_wallet_edge (win_rate avg_win avg_loss u j g : ℚ) : ℚ × Bool :=
  if u < win_rate + j then (max (avg_win + g) 0, true)
  else (min (-avg_loss + g) 0, false)

/-- Mirrors the while loop of poisson_random: multiply uniform draws into p
until p is no longer above the threshold L, counting iterations.  The
source loop has no fuel; termination is probabilistic, so the embedding
takes an explicit fuel bound. -/
def poisson_loop (L : ℚ) (us : ℕ → ℚ) : ℕ → ℕ → ℚ → ℕ
  | 0, k, _ => k
  | fuel + 1, k, p => if L < p then poisson_loop L us fuel (k + 1) (p * us k) else k

/-- Mirrors poisson_random: the loop count minus one, where L stands for
exp (-lambda) of the source (passed in, since exp is irrational). -/
def poisson_random (L : ℚ) (us : ℕ → ℚ) (fuel : ℕ) : ℤ :=
  (poisson_loop L us fuel 0 1 : ℤ) - 1

/-- Portfolio daily loss cap constant of simulate_day (30.0). -/
def portfolio_daily_cap : ℚ := 30

/-- Per-wallet daily loss cap constant of simulate_day (20.0). -/
def per_wallet_daily_cap : ℚ := 20

/-- Maximum total exposure constant of simulate_day (150.0). -/
def max_total_exposure : ℚ := 150

/-- Loop state of the for loop inside simulate_day: the wallet being
mutated, the counters, the two flags and the running exposure. -/
structure DayState where
  wallet : WalletSimulator
  trades_today : ℕ
  wins : ℕ
  losses : ℕ
  max_concurrent_hit : Bool
  daily_loss_hit : Bool
  current_exposure : ℚ
  deriving Repr, DecidableEq

/-- Body of one executed trade of simulate_day (source lines 119 to 136):
scale the drawn pnl by position_size_usd / 25, add it to the daily and
total trackers, add it to daily_losses and bump the loss counter when the
scaled value is strictly negative, otherwise bump the win counter, then
bump trades_today and the running exposure.  Note the is_win flag returned
by the edge draw is not consulted here; the source classifies by the sign
test scaled_pnl < 0. -/
def tradeStep (strategy : StrategyConfig) (pnl : ℚ) (s : DayState) : DayState :=
  let scaled_pnl := pnl * (strategy.position_size_usd / 25)
  let w1 : WalletSimulator :=
    { s.wallet with
        daily_pnl := s.wallet.daily_pnl + scaled_pnl,
        total_pnl := s.wallet.total_pnl + scaled_pnl }
  if scaled_pnl < 0 then
    { s with
        wallet := { w1 with daily_losses := w1.daily_losses + scaled_pnl },
        losses := s.losses + 1,
        trades_today := s.trades_today + 1,
        current_exposure := s.current_exposure + strategy.position_size_usd }
  else
    { s with
        wallet := w1,
        wins := s.wins + 1,
        trades_today := s.trades_today + 1,
        current_exposure := s.current_exposure + strategy.position_size_usd }

/-- The for loop of simulate_day (source lines 104 to 136).  Each iteration
runs the three cap checks in order; the first check that fires ends the
loop (the Python break), setting its flag if it has one.  Otherwise one
trade executes, drawing (u, j, g) from the oracle at the index of the
trade about to execute. -/
def dayLoop (strategy : StrategyConfig) (draws : ℕ → ℚ × ℚ × ℚ) :
    ℕ → DayState → DayState
  | 0, s => s
  | n + 1, s =>
    if s.wallet.daily_losses ≤ -portfolio_daily_cap then
      { s with daily_loss_hit := true }
    else if per_wallet_daily_cap ≤ |s.wallet.daily_losses| then s
    else if max_total_exposure < s.current_exposure + strategy.position_size_usd then
      { s with max_concurrent_hit := true }
    else
      let d := draws s.trades_today
      let out := simulate_wallet_edge (11/20) 45 25 d.1 d.2.1 d.2.2
      dayLoop strategy draws n (tradeStep strategy out.1 s)

/-- Mirrors simulate_day.  num_trades_draw is the value poisson_random
returned for this day (a natural number: the source draw is nonnegative
whenever lambda is positive) and draws is the per-executed-trade random
oracle.  Returns the DailyResult snapshot together with the mutated
wallet. -/
def simulate_day (wallet : WalletSimulator) (strategy : StrategyConfig) (day : ℕ)
    (num_trades_draw : ℕ) (draws : ℕ → ℚ × ℚ × ℚ) : DailyResult × WalletSimulator :=
  let w := wallet.reset_daily
  let num_trades := max 1 num_trades_draw
  let s0 : DayState := ⟨w, 0, 0, 0, false, false, 0⟩
  let s := dayLoop strategy draws num_trades s0
  (⟨day, strategy.name, s.trades_today, s.wins, s.losses, s.wallet.daily_pnl,
      s.wallet.total_pnl,
      (s.wins : ℚ) / ((max s.trades_today 1 : ℕ) : ℚ),
      s.max_concurrent_hit, s.daily_loss_hit,
      s.wallet.initial_bankroll + s.wallet.total_pnl⟩,
    s.wallet)

/-- The per-strategy day loop of run_simulation (source lines 194 to 196):
thread one wallet through the given number of days, collecting the
DailyResult records in day order.  The oracles are indexed first by day. -/
def run_days (strategy : StrategyConfig) (draws : ℕ → ℕ → ℚ × ℚ × ℚ)
    (counts : ℕ → ℕ) : ℕ → ℕ → WalletSimulator → List DailyResult
  | 0, _, _ => []
  | rem + 1, day, w =>
    let step := simulate_day w strategy day (counts day) (draws day)
    step.1 :: run_days strategy draws counts rem (day + 1) step.2

/-- One full strategy run of the Strategy Runner: a fresh default wallet
(bankroll 1000), days numbered from 1. -/
def strategyRun (strategy : StrategyConfig) (draws : ℕ → ℕ → ℚ × ℚ × ℚ)
    (counts : ℕ → ℕ) (days : ℕ) : List DailyResult :=
  run_days strategy draws counts days 1 (WalletSimulator.init 1000)

/-- The three built-in strategies of run_simulation, in list order. -/
def conservative_strategy : StrategyConfig :=
  ⟨"Conservative (2.5%)", 5/2, 25, 6, "Very conservative, slow data collection"⟩

/-- Second built-in strategy of run_simulation. -/
def moderate_strategy : StrategyConfig :=
  ⟨"Moderate (5%)", 5, 50, 10, "Balanced approach, reasonable risk"⟩

/-- Third built-in strategy of run_simulation. -/
def aggressive_strategy : StrategyConfig :=
  ⟨"Aggressive (10%)", 10, 100, 5, "Fast edge detection, higher volatility"⟩

/-- The strategy list hard-coded in run_simulation. -/
def default_strategies : List StrategyConfig :=
  [conservative_strategy, moderate_strategy, aggressive_strategy]

/-- The whole pseudo-random stream of one run, determined by the seed set
once at the start: trade-count draws and per-trade (u, j, g) draws,
indexed by strategy position and day. -/
structure RandomStream where
  trade_count : ℕ → ℕ → ℕ
  trade_draws : ℕ → ℕ → ℕ → ℚ × ℚ × ℚ

/-- Iterate the strategies in list order, each with a fresh wallet, and
concatenate the per-day results into one flat sequence. -/
def run_strategies (stream : RandomStream) (days : ℕ) :
    List StrategyConfig → ℕ → List DailyResult
  | [], _ => []
  | st :: rest, idx =>
    strategyRun st (stream.trade_draws idx) (stream.trade_count idx) days
      ++ run_strategies stream days rest (idx + 1)

/-- Mirrors run_simulation: the three built-in strategies over the given
day count, all randomness coming from the single stream fixed by the seed
at the start of the run. -/
def run_simulation (days : ℕ) (stream : RandomStream) : List DailyResult :=
  run_strategies stream days default_strategies 0

/-- Python max over a list, head-seeded fold.  The source only applies it
to nonempty lists (a strategy group always holds at least one result);
the empty case, unreachable there, returns 0. -/
def py_max : List ℚ → ℚ
  | [] => 0
  | x :: xs => xs.foldl max x

/-- The maximum drawdown computation of analyze_results (source lines 240
to 243): take the maximum of the whole cumulative list, subtract each
cumulative value from it, and take the maximum of those differences. -/
def analyze_max_drawdown (cumulative_pnls : List ℚ) : ℚ :=
  let max_pnl := py_max cumulative_pnls
  py_max (cumulative_pnls.map fun pnl => max_pnl - pnl)

/-- Modelled from the spec: the running-maximum drawdown scan described in
section 4.5 of the specification, which the drawdown claims compare the
code against.  Walks the list in day order keeping the running maximum of
the values seen so far; the drawdown of a day is that running maximum
minus the value of the day; the result is the largest drawdown seen. -/
def runningDrawdownScan : ℚ → ℚ → List ℚ → ℚ
  | _, best, [] => best
  | running_max, best, p :: ps =>
    runningDrawdownScan (max running_max p) (max best (max running_max p - p)) ps

/-- Modelled from the spec: maximum drawdown of a cumulative sequence via
the running-maximum scan, 0 for the empty sequence. -/
def spec_max_drawdown : List ℚ → ℚ
  | [] => 0
  | p :: ps => runningDrawdownScan p 0 ps

/-! Field-level facts about one executed trade. -/

theorem tradeStep_daily_loss_hit (st : StrategyConfig) (pnl : ℚ) (s : DayState) :
    (tradeStep st pnl s).daily_loss_hit = s.daily_loss_hit := by
  simp only [tradeStep]
  split <;> rfl

theorem tradeStep_max_concurrent_hit (st : StrategyConfig) (pnl : ℚ) (s : DayState) :
    (tradeStep st pnl s).max_concurrent_hit = s.max_concurrent_hit := by
  simp only [tradeStep]
  split <;> rfl

theorem tradeStep_trades_today (st : StrategyConfig) (pnl : ℚ) (s : DayState) :
    (tradeStep st pnl s).trades_today = s.trades_today + 1 := by
  simp only [tradeStep]
  split <;> rfl

theorem tradeStep_wins_add_losses (st : StrategyConfig) (pnl : ℚ) (s : DayState) :
    (tradeStep st pnl s).wins + (tradeStep st pnl s).losses = s.wins + s.losses + 1 := by
  simp only [tradeStep]
  split <;> simp <;> omega

theorem tradeStep_wins_le (st : StrategyConfig) (pnl : ℚ) (s : DayState) :
    (tradeStep st pnl s).wins ≤ s.wins + 1 := by
  simp only [tradeStep]
  split <;> simp

theorem tradeStep_initial_bankroll (st : StrategyConfig) (pnl : ℚ) (s : DayState) :
    (tradeStep st pnl s).wallet.initial_bankroll = s.wallet.initial_bankroll := by
  simp only [tradeStep]
  split <;> rfl

theorem tradeStep_total_sub_daily (st : StrategyConfig) (pnl : ℚ) (s : DayState) :
    (tradeStep st pnl s).wallet.total_pnl - (tradeStep st pnl s).wallet.daily_pnl
      = s.wallet.total_pnl - s.wallet.daily_pnl := by
  simp only [tradeStep]
  split <;> simp

theorem tradeStep_current_exposure (st : StrategyConfig) (pnl : ℚ) (s : DayState) :
    (tradeStep st pnl s).current_exposure = s.current_exposure + st.position_size_usd := by
  simp only [tradeStep]
  split <;> rfl

theorem tradeStep_counts_of_nonneg (st : StrategyConfig) (pnl : ℚ) (s : DayState)
    (h : ¬ pnl * (st.position_size_usd / 25) < 0) :
    (tradeStep st pnl s).wins = s.wins + 1 ∧ (tradeStep st pnl s).losses = s.losses := by
  simp only [tradeStep]
  rw [if_neg h]
  exact ⟨rfl, rfl⟩

theorem tradeStep_counts_of_neg (st : StrategyConfig) (pnl : ℚ) (s : DayState)
    (h : pnl * (st.position_size_usd / 25) < 0) :
    (tradeStep st pnl s).losses = s.losses + 1 ∧ (tradeStep st pnl s).wins = s.wins := by
  simp only [tradeStep]
  rw [if_pos h]
  exact ⟨rfl, rfl⟩

/-! Induction principles over the day loop. -/

theorem dayLoop_invariant (st : StrategyConfig) (d : ℕ → ℚ × ℚ × ℚ) (P : DayState → Prop)
    (hb1 : ∀ s, P s → P { s with daily_loss_hit := true })
    (hb3 : ∀ s, P s → P { s with max_concurrent_hit := true })
    (hstep : ∀ s pnl, P s →
      ¬ s.wallet.daily_losses ≤ -portfolio_daily_cap →
      ¬ per_wallet_daily_cap ≤ |s.wallet.daily_losses| →
      ¬ max_total_exposure < s.current_exposure + st.position_size_usd →
      P (tradeStep st pnl s)) :
    ∀ n s, P s → P (dayLoop st d n s) := by
  intro n
  induction n with
  | zero => intro s hs; exact hs
  | succ n ih =>
    intro s hs
    simp only [dayLoop]
    split_ifs with hc1 hc2 hc3
    · exact hb1 s hs
    · exact hs
    · exact hb3 s hs
    · exact ih _ (hstep s _ hs hc1 hc2 hc3)

theorem dayLoop_trades_le (st : StrategyConfig) (d : ℕ → ℚ × ℚ × ℚ) :
    ∀ n s, (dayLoop st d n s).trades_today ≤ s.trades_today + n := by
  intro n
  induction n with
  | zero => intro s; simp [dayLoop]
  | succ n ih =>
    intro s
    simp only [dayLoop]
    split_ifs with hc1 hc2 hc3
    · simp
    · simp
    · simp
    · have h := ih (tradeStep st (simulate_wallet_edge (11/20) 45 25 (d s.trades_today).1
        (d s.trades_today).2.1 (d s.trades_today).2.2).1 s)
      rw [tradeStep_trades_today] at h
      omega

theorem dayLoop_not_both_flags (st : StrategyConfig) (d : ℕ → ℚ × ℚ × ℚ) :
    ∀ n s, s.daily_loss_hit = false → s.max_concurrent_hit = false →
      (dayLoop st d n s).daily_loss_hit = false
      ∨ (dayLoop st d n s).max_concurrent_hit = false := by
  intro n
  induction n with
  | zero => intro s h1 _; exact Or.inl h1
  | succ n ih =>
    intro s h1 h2
    simp only [dayLoop]
    split_ifs with hc1 hc2 hc3
    · exact Or.inr h2
    · exact Or.inl h1
    · exact Or.inl h1
    · exact ih _ (by rw [tradeStep_daily_loss_hit]; exact h1)
        (by rw [tradeStep_max_concurrent_hit]; exact h2)

/-! Facts about a single simulated day. -/

theorem simulate_day_wins_le (wallet : WalletSimulator) (strategy : StrategyConfig)
    (day num_trades_draw : ℕ) (draws : ℕ → ℚ × ℚ × ℚ) :
    (simulate_day wallet strategy day num_trades_draw draws).1.wins
      ≤ (simulate_day wallet strategy day num_trades_draw draws).1.trades_taken := by
  have h := dayLoop_invariant strategy draws (fun s => s.wins ≤ s.trades_today)
    (fun s hs => hs) (fun s hs => hs)
    (fun s pnl hs _ _ _ => by
      have hw := tradeStep_wins_le strategy pnl s
      dsimp only
      rw [tradeStep_trades_today]
      omega)
    (max 1 num_trades_draw) ⟨wallet.reset_daily, 0, 0, 0, false, false, 0⟩ (Nat.le_refl 0)
  simpa [simulate_day] using h

theorem simulate_day_initial_bankroll (wallet : WalletSimulator) (strategy : StrategyConfig)
    (day num_trades_draw : ℕ) (draws : ℕ → ℚ × ℚ × ℚ) :
    (simulate_day wallet strategy day num_trades_draw draws).2.initial_bankroll
      = wallet.initial_bankroll := by
  have h := dayLoop_invariant strategy draws
    (fun s => s.wallet.initial_bankroll = wallet.initial_bankroll)
    (fun s hs => hs) (fun s hs => hs)
    (fun s pnl hs _ _ _ => by dsimp only; rw [tradeStep_initial_bankroll]; exact hs)
    (max 1 num_trades_draw) ⟨wallet.reset_daily, 0, 0, 0, false, false, 0⟩ rfl
  simpa [simulate_day] using h

theorem simulate_day_cum_eq (wallet : WalletSimulator) (strategy : StrategyConfig)
    (day num_trades_draw : ℕ) (draws : ℕ → ℚ × ℚ × ℚ) :
    (simulate_day wallet strategy day num_trades_draw draws).1.cumulative_pnl
      = wallet.total_pnl + (simulate_day wallet strategy day num_trades_draw draws).1.daily_pnl := by
  have h := dayLoop_invariant strategy draws
    (fun s => s.wallet.total_pnl - s.wallet.daily_pnl = wallet.total_pnl)
    (fun s hs => hs) (fun s hs => hs)
    (fun s pnl hs _ _ _ => by dsimp only; rw [tradeStep_total_sub_daily]; exact hs)
    (max 1 num_trades_draw) ⟨wallet.reset_daily, 0, 0, 0, false, false, 0⟩
    (by simp [WalletSimulator.reset_daily])
  simp only [simulate_day]
  linarith [h]

theorem simulate_day_snd_total (wallet : WalletSimulator) (strategy : StrategyConfig)
    (day num_trades_draw : ℕ) (draws : ℕ → ℚ × ℚ × ℚ) :
    (simulate_day wallet strategy day num_trades_draw draws).2.total_pnl
      = (simulate_day wallet strategy day num_trades_draw draws).1.cumulative_pnl := rfl

theorem simulate_day_bankroll_decomp (wallet : WalletSimulator) (strategy : StrategyConfig)
    (day num_trades_draw : ℕ) (draws : ℕ → ℚ × ℚ × ℚ) :
    (simulate_day wallet strategy day num_trades_draw draws).1.bankroll
      = (simulate_day wallet strategy day num_trades_draw draws).2.initial_bankroll
        + (simulate_day wallet strategy day num_trades_draw draws).1.cumulative_pnl := rfl

/-- C3: for every call of simulate_day, with any wallet state, strategy, day
index and random draws, the returned DailyResult never has daily_loss_hit
and max_concurrent_hit both true: the per-trade cap checks run in a fixed
order and the first check that fires ends the day (the loop breaks), so at
most one of the two flags can be set. -/
theorem simulate_day_flags_not_both (wallet : WalletSimulator) (strategy : StrategyConfig)
    (day num_trades_draw : ℕ) (draws : ℕ → ℚ × ℚ × ℚ) :
    (simulate_day wallet strategy day num_trades_draw draws).1.daily_loss_hit = false
    ∨ (simulate_day wallet strategy day num_trades_draw draws).1.max_concurrent_hit = false := by
  have h := dayLoop_not_both_flags strategy draws (max 1 num_trades_draw)
    ⟨wallet.reset_daily, 0, 0, 0, false, false, 0⟩ rfl rfl
  simpa [simulate_day] using h

/-- C4: for every call of simulate_day, the returned DailyResult satisfies
trades_taken at most N, where N is the drawn trade count clamped below by
1, and wins plus losses equals trades_taken. -/
theorem simulate_day_trades_and_counts (wallet : WalletSimulator) (strategy : StrategyConfig)
    (day num_trades_draw : ℕ) (draws : ℕ → ℚ × ℚ × ℚ) :
    (simulate_day wallet strategy day num_trades_draw draws).1.trades_taken
      ≤ max 1 num_trades_draw
    ∧ (simulate_day wallet strategy day num_trades_draw draws).1.wins
        + (simulate_day wallet strategy day num_trades_draw draws).1.losses
      = (simulate_day wallet strategy day num_trades_draw draws).1.trades_taken := by
  constructor
  · have h := dayLoop_trades_le strategy draws (max 1 num_trades_draw)
      ⟨wallet.reset_daily, 0, 0, 0, false, false, 0⟩
    simpa [simulate_day] using h
  · have h := dayLoop_invariant strategy draws
      (fun s => s.wins + s.losses = s.trades_today)
      (fun s hs => hs) (fun s hs => hs)
      (fun s pnl hs _ _ _ => by
        dsimp only
        rw [tradeStep_wins_add_losses, tradeStep_trades_today, hs])
      (max 1 num_trades_draw) ⟨wallet.reset_daily, 0, 0, 0, false, false, 0⟩ rfl
    simpa [simulate_day] using h

/-- C5: for every DailyResult returned by simulate_day, hit_rate is wins
divided by max trades_taken 1 (so the division is always defined), it is 0
when trades_taken is 0, it is wins divided by trades_taken when
trades_taken is positive, and it always lies between 0 and 1. -/
theorem simulate_day_hit_rate_spec (wallet : WalletSimulator) (strategy : StrategyConfig)
    (day num_trades_draw : ℕ) (draws : ℕ → ℚ × ℚ × ℚ) :
    ((simulate_day wallet strategy day num_trades_draw draws).1.trades_taken = 0 →
      (simulate_day wallet strategy day num_trades_draw draws).1.hit_rate = 0)
    ∧ (0 < (simulate_day wallet strategy day num_trades_draw draws).1.trades_taken →
      (simulate_day wallet strategy day num_trades_draw draws).1.hit_rate
        = ((simulate_day wallet strategy day num_trades_draw draws).1.wins : ℚ)
          / ((simulate_day wallet strategy day num_trades_draw draws).1.trades_taken : ℚ))
    ∧ (simulate_day wallet strategy day num_trades_draw draws).1.hit_rate
        = ((simulate_day wallet strategy day num_trades_draw draws).1.wins : ℚ)
          / ((max (simulate_day wallet strategy day num_trades_draw draws).1.trades_taken 1 : ℕ) : ℚ)
    ∧ 0 ≤ (simulate_day wallet strategy day num_trades_draw draws).1.hit_rate
    ∧ (simulate_day wallet strategy day num_trades_draw draws).1.hit_rate ≤ 1 := by
  have hdef : (simulate_day wallet strategy day num_trades_draw draws).1.hit_rate
      = ((simulate_day wallet strategy day num_trades_draw draws).1.wins : ℚ)
        / ((max (simulate_day wallet strategy day num_trades_draw draws).1.trades_taken 1 : ℕ) : ℚ) := rfl
  have hwl := simulate_day_wins_le wallet strategy day num_trades_draw draws
  refine ⟨?_, ?_, hdef, ?_, ?_⟩
  · intro h0
    have hz : (simulate_day wallet strategy day num_trades_draw draws).1.wins = 0 := by omega
    rw [hdef, hz]
    simp
  · intro hp
    rw [hdef, Nat.max_eq_left hp]
  · rw [hdef]
    positivity
  · rw [hdef]
    have hle : (simulate_day wallet strategy day num_trades_draw draws).1.wins
        ≤ max (simulate_day wallet strategy day num_trades_draw draws).1.trades_taken 1 :=
      le_trans hwl (le_max_left _ _)
    have hpos : (0 : ℚ)
        < ((max (simulate_day wallet strategy day num_trades_draw draws).1.trades_taken 1 : ℕ) : ℚ) := by
      have : 1 ≤ max (simulate_day wallet strategy day num_trades_draw draws).1.trades_taken 1 :=
        le_max_right _ _
      exact_mod_cast Nat.lt_of_lt_of_le Nat.zero_lt_one this
    rw [div_le_one hpos]
    exact_mod_cast hle

/-- C6: for every call of simulate_wallet_edge, a result flagged as a win
has a profit clamped to be at least 0, and a result flagged as a loss has
a value clamped to be at most 0; and in the bookkeeping of simulate_day a
scaled result of exactly 0 increments the win counter while only strictly
negative scaled results increment the loss counter. -/
theorem edge_clamp_and_bookkeeping (win_rate avg_win avg_loss u j g : ℚ)
    (strategy : StrategyConfig) (pnl : ℚ) (s : DayState) :
    ((simulate_wallet_edge win_rate avg_win avg_loss u j g).2 = true →
      0 ≤ (simulate_wallet_edge win_rate avg_win avg_loss u j g).1)
    ∧ ((simulate_wallet_edge win_rate avg_win avg_loss u j g).2 = false →
      (simulate_wallet_edge win_rate avg_win avg_loss u j g).1 ≤ 0)
    ∧ (pnl * (strategy.position_size_usd / 25) = 0 →
      (tradeStep strategy pnl s).wins = s.wins + 1
      ∧ (tradeStep strategy pnl s).losses = s.losses)
    ∧ (pnl * (strategy.position_size_usd / 25) < 0 →
      (tradeStep strategy pnl s).losses = s.losses + 1
      ∧ (tradeStep strategy pnl s).wins = s.wins) := by
  refine ⟨?_, ?_, ?_, ?_⟩
  · simp only [simulate_wallet_edge]
    split
    · intro _
      exact le_max_right _ _
    · intro h
      exact Bool.noConfusion h
  · simp only [simulate_wallet_edge]
    split
    · intro h
      exact Bool.noConfusion h
    · intro _
      exact min_le_right _ _
  · intro h0
    exact tradeStep_counts_of_nonneg strategy pnl s (by rw [h0]; exact lt_irrefl 0)
  · intro hneg
    exact tradeStep_counts_of_neg strategy pnl s hneg

/-- Chaining predicate for a sequence of daily results: the first result
extends the given running total by its own daily pnl, and every later
result extends the cumulative value of its predecessor. -/
def chainFrom (t : ℚ) : List DailyResult → Prop
  | [] => True
  | r :: rs => r.cumulative_pnl = t + r.daily_pnl ∧ chainFrom r.cumulative_pnl rs

theorem run_days_chainFrom (strategy : StrategyConfig) (draws : ℕ → ℕ → ℚ × ℚ × ℚ)
    (counts : ℕ → ℕ) :
    ∀ rem day w, chainFrom w.total_pnl (run_days strategy draws counts rem day w) := by
  intro rem
  induction rem with
  | zero =>
    intro day w
    simp [run_days, chainFrom]
  | succ rem ih =>
    intro day w
    simp only [run_days]
    refine ⟨simulate_day_cum_eq w strategy day (counts day) (draws day), ?_⟩
    have h := ih (day + 1) (simulate_day w strategy day (counts day) (draws day)).2
    rw [simulate_day_snd_total] at h
    exact h

theorem run_days_bankroll (strategy : StrategyConfig) (draws : ℕ → ℕ → ℚ × ℚ × ℚ)
    (counts : ℕ → ℕ) :
    ∀ rem day w, ∀ r ∈ run_days strategy draws counts rem day w,
      r.bankroll = w.initial_bankroll + r.cumulative_pnl := by
  intro rem
  induction rem with
  | zero =>
    intro day w r hr
    simp [run_days] at hr
  | succ rem ih =>
    intro day w r hr
    simp only [run_days, List.mem_cons] at hr
    rcases hr with rfl | hr
    · rw [simulate_day_bankroll_decomp, simulate_day_initial_bankroll]
    · have h := ih (day + 1) (simulate_day w strategy day (counts day) (draws day)).2 r hr
      rw [simulate_day_initial_bankroll] at h
      exact h

theorem chainFrom_get :
    ∀ (rs : List DailyResult) (t : ℚ), chainFrom t rs →
      ∀ i (h : i + 1 < rs.length),
        (rs.get ⟨i + 1, h⟩).cumulative_pnl
          = (rs.get ⟨i, Nat.lt_of_succ_lt h⟩).cumulative_pnl
            + (rs.get ⟨i + 1, h⟩).daily_pnl := by
  intro rs
  induction rs with
  | nil =>
    intro t _ i h
    simp at h
  | cons r rs ih =>
    intro t hc i h
    cases i with
    | zero =>
      cases rs with
      | nil => simp at h
      | cons r2 rs2 => exact hc.2.1
    | succ i =>
      exact ih r.cumulative_pnl hc.2 i (Nat.succ_lt_succ_iff.mp h)

/-- C7: for every strategy run produced by the Strategy Runner (a fresh
default wallet threaded through the days in order), consecutive
DailyResult records satisfy cumulative_pnl at a day equal to the
cumulative_pnl of the previous day plus the daily_pnl of the day, and
every DailyResult satisfies bankroll equal to 1000 plus cumulative_pnl,
1000 being the default starting bankroll. -/
theorem strategyRun_cumulative_chain (strategy : StrategyConfig)
    (draws : ℕ → ℕ → ℚ × ℚ × ℚ) (counts : ℕ → ℕ) (days : ℕ) :
    (∀ i (h : i + 1 < (strategyRun strategy draws counts days).length),
      ((strategyRun strategy draws counts days).get ⟨i + 1, h⟩).cumulative_pnl
        = ((strategyRun strategy draws counts days).get ⟨i, Nat.lt_of_succ_lt h⟩).cumulative_pnl
          + ((strategyRun strategy draws counts days).get ⟨i + 1, h⟩).daily_pnl)
    ∧ ∀ r ∈ strategyRun strategy draws counts days,
        r.bankroll = 1000 + r.cumulative_pnl := by
  constructor
  · intro i h
    exact chainFrom_get (strategyRun strategy draws counts days) 0
      (run_days_chainFrom strategy draws counts days 1 (WalletSimulator.init 1000)) i h
  · intro r hr
    exact run_days_bankroll strategy draws counts days 1 (WalletSimulator.init 1000) r hr

/-- C8: whenever the day loop of simulate_day reaches a trade attempt in a
state where the portfolio daily-loss check does not fire but the absolute
daily realized loss has reached the per-wallet cap of 20, the day stops
with no further trades and, provided no flag was set before (which always
holds, since setting a flag ends the day), the returned record carries
neither daily_loss_hit nor max_concurrent_hit: the per-wallet stop is
invisible in the output. -/
theorem dayLoop_per_wallet_silent_stop (strategy : StrategyConfig)
    (draws : ℕ → ℚ × ℚ × ℚ) (n : ℕ) (s : DayState)
    (hdl : s.daily_loss_hit = false) (hmc : s.max_concurrent_hit = false)
    (h1 : ¬ s.wallet.daily_losses ≤ -portfolio_daily_cap)
    (h2 : per_wallet_daily_cap ≤ |s.wallet.daily_losses|) :
    dayLoop strategy draws n s = s
    ∧ (dayLoop strategy draws n s).trades_today = s.trades_today
    ∧ (dayLoop strategy draws n s).daily_loss_hit = false
    ∧ (dayLoop strategy draws n s).max_concurrent_hit = false := by
  have he : dayLoop strategy draws n s = s := by
    cases n with
    | zero => rfl
    | succ n =>
      simp only [dayLoop]
      rw [if_neg h1, if_pos h2]
  exact ⟨he, by rw [he], by rw [he]; exact hdl, by rw [he]; exact hmc⟩

/-- C9: the full simulation output is a deterministic function of the seed
and the parameters: all randomness is drawn from the single stream fixed
by the seed at the start of the run, so two runs with the same seed and
the same day count produce the identical ordered sequence of DailyResult
records. -/
theorem run_simulation_deterministic (prng : ℕ → RandomStream)
    (seed1 seed2 days1 days2 : ℕ) (hseed : seed1 = seed2) (hdays : days1 = days2) :
    run_simulation days1 (prng seed1) = run_simulation days2 (prng seed2) := by
  subst hseed
  subst hdays
  rfl

/-- C10: for every call of simulate_day with a strategy of positive
position size p, the returned trades_taken is at most the floor of 150
divided by p: each executed trade adds p to the running exposure, which
starts at 0, and the exposure check stops the day before any trade that
would push the exposure over 150.  In particular a strategy with p = 100
executes at most 1 trade per day and one with p = 50 at most 3. -/
theorem simulate_day_exposure_bound (wallet : WalletSimulator) (strategy : StrategyConfig)
    (day num_trades_draw : ℕ) (draws : ℕ → ℚ × ℚ × ℚ)
    (hpos : 0 < strategy.position_size_usd) :
    (simulate_day wallet strategy day num_trades_draw draws).1.trades_taken
      ≤ Nat.floor ((150 : ℚ) / strategy.position_size_usd)
    ∧ (strategy.position_size_usd = 100 →
      (simulate_day wallet strategy day num_trades_draw draws).1.trades_taken ≤ 1)
    ∧ (strategy.position_size_usd = 50 →
      (simulate_day wallet strategy day num_trades_draw draws).1.trades_taken ≤ 3) := by
  have hinv := dayLoop_invariant strategy draws
    (fun s => s.current_exposure = (s.trades_today : ℚ) * strategy.position_size_usd
      ∧ s.current_exposure ≤ max_total_exposure)
    (fun s hs => hs) (fun s hs => hs)
    (fun s pnl hs _ _ hc3 => by
      dsimp only
      dsimp only at hs
      rw [tradeStep_current_exposure, tradeStep_trades_today]
      constructor
      · rw [hs.1]
        push_cast
        ring
      · exact not_lt.mp hc3)
    (max 1 num_trades_draw) ⟨wallet.reset_daily, 0, 0, 0, false, false, 0⟩
    (by constructor <;> simp [max_total_exposure])
  dsimp only at hinv
  have hmain : ((simulate_day wallet strategy day num_trades_draw draws).1.trades_taken : ℚ)
      * strategy.position_size_usd ≤ 150 := by
    have hj : (simulate_day wallet strategy day num_trades_draw draws).1.trades_taken
        = (dayLoop strategy draws (max 1 num_trades_draw)
            ⟨wallet.reset_daily, 0, 0, 0, false, false, 0⟩).trades_today := rfl
    rw [hj, ← hinv.1]
    have h2 := hinv.2
    rw [max_total_exposure] at h2
    exact h2
  refine ⟨?_, ?_, ?_⟩
  · apply Nat.le_floor
    rw [le_div_iff₀ hpos]
    exact hmain
  · intro h100
    rw [h100] at hmain
    have hlt : ((simulate_day wallet strategy day num_trades_draw draws).1.trades_taken : ℚ) < 2 := by
      linarith
    have : (simulate_day wallet strategy day num_trades_draw draws).1.trades_taken < 2 := by
      exact_mod_cast hlt
    omega
  · intro h50
    rw [h50] at hmain
    have hlt : ((simulate_day wallet strategy day num_trades_draw draws).1.trades_taken : ℚ) < 4 := by
      linarith
    have : (simulate_day wallet strategy day num_trades_draw draws).1.trades_taken < 4 := by
      exact_mod_cast hlt
    omega

/-- C1, code evaluation at the failing input: on the cumulative sequence
[0, 10] the drawdown computation of analyze_results reports 10, because it
measures every day against the global maximum of the whole sequence, while
the running-maximum scan described by the claim yields 0 (the value 10 is
never a peak that the sequence later drops from). -/
theorem analyze_mdd_uses_global_max :
    analyze_max_drawdown [0, 10] = 10 ∧ spec_max_drawdown [0, 10] = 0 := by
  constructor <;>
    norm_num [analyze_max_drawdown, py_max, spec_max_drawdown, runningDrawdownScan]

/-- C2, code evaluation at the failing input: the cumulative sequence
[0, 10] is non-decreasing, yet the drawdown reported by analyze_results on
it is 10, not 0 as the claim requires; the code value max minus min is 0
only for constant sequences. -/
theorem analyze_mdd_positive_on_nondecreasing :
    List.Chain' (fun a b => a ≤ b) [(0 : ℚ), 10]
    ∧ analyze_max_drawdown [0, 10] = 10 := by
  refine ⟨?_, ?_⟩ <;>
    norm_num [List.chain'_cons, analyze_max_drawdown, py_max]

/-- Witness for the hit-rate theorem: a concrete day on which three trades
execute, instantiating the positive-trade-count branch. -/
theorem simulate_day_hit_rate_spec_witness :
    (simulate_day (WalletSimulator.init 1000) moderate_strategy 1 3 (fun _ => (0, 0, 0))).1.hit_rate
      = ((simulate_day (WalletSimulator.init 1000) moderate_strategy 1 3 (fun _ => (0, 0, 0))).1.wins : ℚ)
        / ((simulate_day (WalletSimulator.init 1000) moderate_strategy 1 3 (fun _ => (0, 0, 0))).1.trades_taken : ℚ) :=
  (simulate_day_hit_rate_spec (WalletSimulator.init 1000) moderate_strategy 1 3
      (fun _ => (0, 0, 0))).2.1
    (by norm_num [simulate_day, dayLoop, tradeStep, simulate_wallet_edge, moderate_strategy,
      WalletSimulator.init, WalletSimulator.reset_daily, portfolio_daily_cap,
      per_wallet_daily_cap, max_total_exposure])

/-- Witness for the clamping theorem: a winning draw whose noisy payoff
would be negative is clamped to a value at least 0. -/
theorem edge_clamp_and_bookkeeping_witness :
    0 ≤ (simulate_wallet_edge (11/20) 45 25 0 0 (-100)).1 :=
  (edge_clamp_and_bookkeeping (11/20) 45 25 0 0 (-100) moderate_strategy 0
      ⟨WalletSimulator.init 1000, 0, 0, 0, false, false, 0⟩).1
    (by norm_num [simulate_wallet_edge])

/-- Witness for the cumulative-chain theorem: a concrete two-day run of the
moderate strategy, checked at the second day. -/
theorem strategyRun_cumulative_chain_witness :
    ((strategyRun moderate_strategy (fun _ _ => (0, 0, 0)) (fun _ => 0) 2).get
        ⟨1, by norm_num [strategyRun, run_days]⟩).cumulative_pnl
      = ((strategyRun moderate_strategy (fun _ _ => (0, 0, 0)) (fun _ => 0) 2).get
          ⟨0, by norm_num [strategyRun, run_days]⟩).cumulative_pnl
        + ((strategyRun moderate_strategy (fun _ _ => (0, 0, 0)) (fun _ => 0) 2).get
            ⟨1, by norm_num [strategyRun, run_days]⟩).daily_pnl :=
  (strategyRun_cumulative_chain moderate_strategy (fun _ _ => (0, 0, 0)) (fun _ => 0) 2).1 0
    (by norm_num [strategyRun, run_days])

/-- Witness for the silent per-wallet stop: a mid-day state with daily
realized losses of minus 20 is returned unchanged by the rest of the
loop. -/
theorem dayLoop_per_wallet_silent_stop_witness :
    dayLoop moderate_strategy (fun _ => (0, 0, 0)) 7
        ⟨⟨1000, 1000, -20, -20, -20⟩, 1, 0, 1, false, false, 50⟩
      = ⟨⟨1000, 1000, -20, -20, -20⟩, 1, 0, 1, false, false, 50⟩ :=
  (dayLoop_per_wallet_silent_stop moderate_strategy (fun _ => (0, 0, 0)) 7
      ⟨⟨1000, 1000, -20, -20, -20⟩, 1, 0, 1, false, false, 50⟩ rfl rfl
      (by norm_num [portfolio_daily_cap])
      (by norm_num [per_wallet_daily_cap])).1

/-- Witness for determinism: two three-day runs from the same seed through
the same generator coincide. -/
theorem run_simulation_deterministic_witness :
    run_simulation 3 ((fun _ => (⟨fun _ _ => 0, fun _ _ _ => (0, 0, 0)⟩ : RandomStream)) 42)
      = run_simulation 3 ((fun _ => (⟨fun _ _ => 0, fun _ _ _ => (0, 0, 0)⟩ : RandomStream)) 42) :=
  run_simulation_deterministic (fun _ => ⟨fun _ _ => 0, fun _ _ _ => (0, 0, 0)⟩) 42 42 3 3 rfl rfl

/-- Witness for the exposure bound: the moderate strategy with position
size 50 takes at most 3 trades even when 9 are drawn. -/
theorem simulate_day_exposure_bound_witness :
    (simulate_day (WalletSimulator.init 1000) moderate_strategy 1 9
        (fun _ => (0, 0, 0))).1.trades_taken ≤ 3 :=
  (simulate_day_exposure_bound (WalletSimulator.init 1000) moderate_strategy 1 9
      (fun _ => (0, 0, 0)) (by norm_num [moderate_strategy])).2.2
    (by norm_num [moderate_strategy])

end TraderEval
